import Mathlib

/-!
Verification of the rigid-body core of rg3d-physics (src/rigid_body.rs).

The development shallowly embeds the RigidBody data model and its
operations over idealized real arithmetic (f32 is modelled by ℝ).
External collaborators (the GJK/EPA narrow phase) are modelled as
oracle parameters; vector math from the external core crate is
modelled from the spec where noted.
-/

noncomputable section

/-- 3D vector. Modelled from the spec: the vector type lives in the external
core crate; components are f32, idealized here as real numbers. -/
@[ext]
structure Vec3 where
  x : ℝ
  y : ℝ
  z : ℝ

namespace Vec3

/-- The zero vector (`Vec3::ZERO`). -/
def ZERO : Vec3 := ⟨0, 0, 0⟩

/-- The fixed up vector (`Vec3::UP`). Modelled from the spec: a fixed
"up" vector used as the degenerate-normal fallback in body-body contacts. -/
def UP : Vec3 := ⟨0, 1, 0⟩

/-- Componentwise addition. -/
def add (a b : Vec3) : Vec3 := ⟨a.x + b.x, a.y + b.y, a.z + b.z⟩

/-- Componentwise subtraction. -/
def sub (a b : Vec3) : Vec3 := ⟨a.x - b.x, a.y - b.y, a.z - b.z⟩

/-- Componentwise negation. -/
def neg (a : Vec3) : Vec3 := ⟨-a.x, -a.y, -a.z⟩

/-- Multiplication of every component by a scalar (`Vec3::scale`). -/
def scale (a : Vec3) (s : ℝ) : Vec3 := ⟨a.x * s, a.y * s, a.z * s⟩

/-- Squared euclidean length (`Vec3::sqr_len`). -/
def sqr_len (a : Vec3) : ℝ := a.x * a.x + a.y * a.y + a.z * a.z

instance : Add Vec3 := ⟨Vec3.add⟩

instance : Sub Vec3 := ⟨Vec3.sub⟩

instance : Neg Vec3 := ⟨Vec3.neg⟩

/-- Normalization (`Vec3::normalized`). Modelled from the spec: returns
no value exactly when the vector is degenerate (zero length), otherwise
the vector divided by its length. -/
def normalized (a : Vec3) : Option Vec3 :=
  if a.sqr_len = 0 then none else some (a.scale (1 / Real.sqrt a.sqr_len))

end Vec3

/-- Pool handle used as the body reference in a contact. Modelled from the
spec: an opaque reference with a distinguished null sentinel (`Handle::NONE`). -/
inductive Handle where
  | NONE : Handle
  | valid (index generation : ℕ) : Handle

/-- Convex shape used by the narrow phase. Modelled from the spec: the shape
library (sphere/box/capsule/triangle plus the no-geometry dummy) is an
external collaborator; only the constructors used by this core are relevant. -/
inductive ConvexShape where
  | Dummy : ConvexShape
  | Sphere (radius : ℝ) : ConvexShape
  | Triangle (vertices : Vec3 × Vec3 × Vec3) : ConvexShape

/-- A static-geometry triangle. Modelled from the spec: triangles are
consumed as three-point records plus a stable integer index. -/
structure StaticTriangle where
  points : Vec3 × Vec3 × Vec3

/-- Contact record (`Contact`). Modelled from the spec and its construction
sites in src/rigid_body.rs: body reference, contact position, normal and
triangle index (a u32 in the source, modelled as a natural number < 2^32). -/
structure Contact where
  body : Handle
  position : Vec3
  normal : Vec3
  triangle_index : ℕ

/-- Result of EPA penetration recovery. Modelled from the spec: a minimal
penetration vector and a contact point. -/
structure PenetrationInfo where
  penetration_vector : Vec3
  contact_point : Vec3

/-- Collision flags bitset (`CollisionFlags`, a u8 bitset from the
bitflags macro in src/rigid_body.rs). -/
structure CollisionFlags where
  bits : ℕ

namespace CollisionFlags

/-- `CollisionFlags::NONE = 0`. -/
def NONE : CollisionFlags := ⟨0⟩

/-- `CollisionFlags::DISABLE_COLLISION_RESPONSE = 1 << 0`. -/
def DISABLE_COLLISION_RESPONSE : CollisionFlags := ⟨1⟩

/-- The union of all defined flags (bitflags `all()`). -/
def all : CollisionFlags := ⟨1⟩

/-- Bitflags `contains`: every bit of `other` is set in `self`. -/
def contains (self other : CollisionFlags) : Bool :=
  self.bits &&& other.bits == other.bits

/-- Bitflags `from_bits`: the validating conversion from a raw u8 bit
pattern; yields no value when any bit outside `all` is set, and otherwise
stores the pattern exactly (no masking). -/
def from_bits (bits : ℕ) : Option CollisionFlags :=
  if bits &&& (255 ^^^ CollisionFlags.all.bits) = 0 then some ⟨bits⟩ else none

end CollisionFlags

/-- The flag-reconstruction step of `RigidBody::visit` when reading
(src/rigid_body.rs lines 65-69): the raw integer is converted with
`CollisionFlags::from_bits(..).unwrap()`; the no-value case models the
fatal unwrap panic on a malformed pattern. -/
def visitReadCollisionFlags (raw : ℕ) : Option CollisionFlags :=
  CollisionFlags.from_bits raw

/-- `u64::MAX`. -/
def u64MAX : ℕ := 2 ^ 64 - 1

/-- The rigid body state (`struct RigidBody`). u64 fields are modelled as
natural numbers; f32 fields as real numbers. -/
@[ext]
structure RigidBody where
  position : Vec3
  shape : ConvexShape
  last_position : Vec3
  acceleration : Vec3
  contacts : List Contact
  friction : ℝ
  gravity : Vec3
  speed_limit : ℝ
  lifetime : Option ℝ
  user_flags : ℕ
  collision_group : ℕ
  collision_mask : ℕ
  collision_flags : CollisionFlags

namespace RigidBody

/-- `RigidBody::new`. -/
def new (shape : ConvexShape) : RigidBody :=
  { position := Vec3.ZERO
    last_position := Vec3.ZERO
    acceleration := Vec3.ZERO
    friction := 0.2
    gravity := Vec3.mk 0 (-9.81) 0
    shape := shape
    contacts := []
    speed_limit := 0.75
    lifetime := none
    user_flags := 0
    collision_group := 1
    collision_mask := u64MAX
    collision_flags := CollisionFlags.NONE }

/-- `impl Default for RigidBody`: a body with the no-geometry dummy shape. -/
def default : RigidBody := RigidBody.new ConvexShape.Dummy

/-- `impl Clone for RigidBody`: copies all physical state but resets
`contacts` to empty and `collision_flags` to none. -/
def clone (self : RigidBody) : RigidBody :=
  { position := self.position
    last_position := self.last_position
    acceleration := self.acceleration
    contacts := []
    friction := self.friction
    gravity := self.gravity
    shape := self.shape
    speed_limit := self.speed_limit
    lifetime := self.lifetime
    user_flags := self.user_flags
    collision_group := self.collision_group
    collision_mask := self.collision_mask
    collision_flags := CollisionFlags.NONE }

/-- `RigidBody::set_position`: sets both `position` and `last_position`. -/
def set_position (self : RigidBody) (p : Vec3) : RigidBody :=
  { self with position := p, last_position := p }

/-- `RigidBody::move_by`: translates `position` only. -/
def move_by (self : RigidBody) (v : Vec3) : RigidBody :=
  { self with position := self.position + v }

/-- `RigidBody::set_shape`. -/
def set_shape (self : RigidBody) (shape : ConvexShape) : RigidBody :=
  { self with shape := shape }

/-- `RigidBody::set_friction`: stores the input, then clamps into [0, 1]. -/
def set_friction (self : RigidBody) (friction : ℝ) : RigidBody :=
  { self with friction :=
      if friction < 0 then 0 else if friction > 1 then 1 else friction }

/-- `RigidBody::set_x_velocity`: solves `last_position.x = position.x - x`. -/
def set_x_velocity (self : RigidBody) (x : ℝ) : RigidBody :=
  { self with last_position := Vec3.mk (self.position.x - x) self.last_position.y self.last_position.z }

/-- `RigidBody::set_y_velocity`. -/
def set_y_velocity (self : RigidBody) (y : ℝ) : RigidBody :=
  { self with last_position := Vec3.mk self.last_position.x (self.position.y - y) self.last_position.z }

/-- `RigidBody::set_z_velocity`. -/
def set_z_velocity (self : RigidBody) (z : ℝ) : RigidBody :=
  { self with last_position := Vec3.mk self.last_position.x self.last_position.y (self.position.z - z) }

/-- `RigidBody::set_gravity`. -/
def set_gravity (self : RigidBody) (gravity : Vec3) : RigidBody :=
  { self with gravity := gravity }

/-- `RigidBody::set_lifetime`: installs a finite countdown. -/
def set_lifetime (self : RigidBody) (time_seconds : ℝ) : RigidBody :=
  { self with lifetime := some time_seconds }

/-- The damped Verlet position update, lines 201-223 of
src/rigid_body.rs: select damping, update `position` per axis, shift
`last_position` to the pre-update `position`, reset `acceleration`. -/
def verletIntegrate (self : RigidBody) (sqr_delta_time air_friction : ℝ) :
    RigidBody :=
  let friction := if self.contacts.isEmpty then air_friction else self.friction
  let new_position : Vec3 :=
    Vec3.mk
      ((2 - friction) * self.position.x - (1 - friction) * self.last_position.x + self.acceleration.x * sqr_delta_time)
      ((2 - friction) * self.position.y - (1 - friction) * self.last_position.y + self.acceleration.y * sqr_delta_time)
      ((2 - friction) * self.position.z - (1 - friction) * self.last_position.z + self.acceleration.z * sqr_delta_time)
  { self with
    position := new_position
    last_position := self.position
    acceleration := Vec3.ZERO }

/-- The speed-limit clamp, lines 225-231 of src/rigid_body.rs: when the
squared length of `last_position - position` exceeds `speed_limit²` and the
velocity can be normalized, move `last_position` to
`position - direction * speed_limit`. -/
def clampSpeed (self : RigidBody) : RigidBody :=
  if (self.last_position - self.position).sqr_len
      > self.speed_limit * self.speed_limit then
    match (self.last_position - self.position).normalized with
    | some direction =>
        { self with last_position := self.position - direction.scale self.speed_limit }
    | none => self
  else self

/-- `RigidBody::verlet`: the position update followed by the speed clamp. -/
def verlet (self : RigidBody) (sqr_delta_time air_friction : ℝ) : RigidBody :=
  (self.verletIntegrate sqr_delta_time air_friction).clampSpeed

/-- `RigidBody::solve_triangle_collision`, parameterized by the external
GJK/EPA narrow-phase collaborators (`σ` is the opaque simplex type). -/
def solve_triangle_collision {σ : Type}
    (gjk_is_intersects : ConvexShape → Vec3 → ConvexShape → Vec3 → Option σ)
    (epa_get_penetration_info :
      σ → ConvexShape → Vec3 → ConvexShape → Vec3 → Option PenetrationInfo)
    (self : RigidBody) (triangle : StaticTriangle) (triangle_index : ℕ) :
    RigidBody :=
  let triangle_shape := ConvexShape.Triangle triangle.points
  match gjk_is_intersects self.shape self.position triangle_shape Vec3.ZERO with
  | none => self
  | some simplex =>
    match epa_get_penetration_info simplex self.shape self.position
        triangle_shape Vec3.ZERO with
    | none => self
    | some penetration_info =>
      { self with
        position := self.position - penetration_info.penetration_vector
        contacts := self.contacts ++
          [{ body := Handle.NONE
             position := penetration_info.contact_point
             normal := (-penetration_info.penetration_vector).normalized.getD Vec3.ZERO
             triangle_index := triangle_index % 2 ^ 32 }] }

/-- `RigidBody::solve_rigid_body_collision`, parameterized by the external
GJK/EPA narrow-phase collaborators; returns the final states of
`(self, other)`. -/
def solve_rigid_body_collision {σ : Type}
    (gjk_is_intersects : ConvexShape → Vec3 → ConvexShape → Vec3 → Option σ)
    (epa_get_penetration_info :
      σ → ConvexShape → Vec3 → ConvexShape → Vec3 → Option PenetrationInfo)
    (self other : RigidBody) : RigidBody × RigidBody :=
  match gjk_is_intersects self.shape self.position other.shape other.position with
  | none => (self, other)
  | some simplex =>
    match epa_get_penetration_info simplex self.shape self.position
        other.shape other.position with
    | none => (self, other)
    | some penetration_info =>
      let half_push := penetration_info.penetration_vector.scale 0.5
      let contact : Contact :=
        { body := Handle.NONE
          position := penetration_info.contact_point
          normal := (-penetration_info.penetration_vector).normalized.getD Vec3.UP
          triangle_index := 0 }
      ({ self with
          position :=
            if self.collision_flags.contains CollisionFlags.DISABLE_COLLISION_RESPONSE
            then self.position else self.position - half_push
          contacts := self.contacts ++ [contact] },
       { other with
          position :=
            if other.collision_flags.contains CollisionFlags.DISABLE_COLLISION_RESPONSE
            then other.position else other.position + half_push
          contacts := other.contacts ++ [contact] })

end RigidBody

/-- A concrete penetration result used to exercise the collision solvers. -/
def pinfoW : PenetrationInfo := ⟨Vec3.mk 1 0 0, Vec3.mk 0 0 0⟩

/-- A concrete narrow-phase intersection oracle that always reports an
intersection (with a trivial simplex type). -/
def gjkW : ConvexShape → Vec3 → ConvexShape → Vec3 → Option Unit :=
  fun _ _ _ _ => some ()

/-- A concrete narrow-phase intersection oracle that always reports no
intersection. -/
def gjkNoneW : ConvexShape → Vec3 → ConvexShape → Vec3 → Option Unit :=
  fun _ _ _ _ => none

/-- A concrete penetration-recovery oracle returning a fixed result. -/
def epaW : Unit → ConvexShape → Vec3 → ConvexShape → Vec3 → Option PenetrationInfo :=
  fun _ _ _ _ _ => some pinfoW

/-- A concrete penetration-recovery oracle returning no penetration data. -/
def epaNoneW : Unit → ConvexShape → Vec3 → ConvexShape → Vec3 → Option PenetrationInfo :=
  fun _ _ _ _ _ => none

/-- A concrete static triangle. -/
def triW : StaticTriangle := ⟨(Vec3.mk 0 0 0, Vec3.mk 1 0 0, Vec3.mk 0 1 0)⟩

/-- A freshly constructed concrete body. -/
def bodyW : RigidBody := RigidBody.new ConvexShape.Dummy

/-- A concrete body whose collision response is disabled. -/
def bodyF : RigidBody :=
  { RigidBody.new ConvexShape.Dummy with
      collision_flags := CollisionFlags.DISABLE_COLLISION_RESPONSE }

/-- A concrete body whose implied velocity after integration exceeds its
speed limit: position 0, previous position (2,0,0), speed limit 1. -/
def cbC4 : RigidBody :=
  { RigidBody.new ConvexShape.Dummy with
      last_position := Vec3.mk 2 0 0
      speed_limit := 1 }

namespace Vec3

@[simp] theorem add_x (a b : Vec3) : (a + b).x = a.x + b.x := rfl

@[simp] theorem add_y (a b : Vec3) : (a + b).y = a.y + b.y := rfl

@[simp] theorem add_z (a b : Vec3) : (a + b).z = a.z + b.z := rfl

@[simp] theorem sub_x (a b : Vec3) : (a - b).x = a.x - b.x := rfl

@[simp] theorem sub_y (a b : Vec3) : (a - b).y = a.y - b.y := rfl

@[simp] theorem sub_z (a b : Vec3) : (a - b).z = a.z - b.z := rfl

@[simp] theorem neg_x (a : Vec3) : (-a).x = -a.x := rfl

@[simp] theorem neg_y (a : Vec3) : (-a).y = -a.y := rfl

@[simp] theorem neg_z (a : Vec3) : (-a).z = -a.z := rfl

@[simp] theorem scale_x (a : Vec3) (s : ℝ) : (a.scale s).x = a.x * s := rfl

@[simp] theorem scale_y (a : Vec3) (s : ℝ) : (a.scale s).y = a.y * s := rfl

@[simp] theorem scale_z (a : Vec3) (s : ℝ) : (a.scale s).z = a.z * s := rfl

theorem sqr_len_nonneg (a : Vec3) : 0 ≤ a.sqr_len := by
  unfold sqr_len
  nlinarith [mul_self_nonneg a.x, mul_self_nonneg a.y, mul_self_nonneg a.z]

theorem scale_sqr_len (a : Vec3) (s : ℝ) :
    (a.scale s).sqr_len = s * s * a.sqr_len := by
  unfold sqr_len scale
  ring

theorem scale_scale (a : Vec3) (s t : ℝ) :
    (a.scale s).scale t = a.scale (s * t) := by
  ext <;> simp [mul_assoc]

theorem sub_sub_self (p w : Vec3) : p - w - p = w.scale (-1) := by
  ext <;> simp

/-- The unit vector produced by normalization has squared length one. -/
theorem normalized_unit_sqr_len (a : Vec3) (h : a.sqr_len ≠ 0) :
    (a.scale (1 / Real.sqrt a.sqr_len)).sqr_len = 1 := by
  have h0 : 0 ≤ a.sqr_len := a.sqr_len_nonneg
  have hs : Real.sqrt a.sqr_len * Real.sqrt a.sqr_len = a.sqr_len :=
    Real.mul_self_sqrt h0
  have hsne : Real.sqrt a.sqr_len ≠ 0 := by
    intro h1
    exact h (by rw [← hs, h1, mul_zero])
  rw [scale_sqr_len]
  field_simp

theorem normalized_of_ne_zero (a : Vec3) (h : a.sqr_len ≠ 0) :
    a.normalized = some (a.scale (1 / Real.sqrt a.sqr_len)) := by
  unfold normalized
  rw [if_neg h]

end Vec3

namespace RigidBody

/-- The clamp leaves the body unchanged when the implied squared speed does
not exceed the squared speed limit. -/
theorem clampSpeed_of_not_gt (c : RigidBody)
    (h : ¬ (c.last_position - c.position).sqr_len > c.speed_limit * c.speed_limit) :
    c.clampSpeed = c := by
  unfold clampSpeed
  rw [if_neg h]

/-- The clamp rescales `last_position` when the implied squared speed
exceeds the squared speed limit. -/
theorem clampSpeed_of_gt (c : RigidBody)
    (h : (c.last_position - c.position).sqr_len > c.speed_limit * c.speed_limit) :
    c.clampSpeed =
      { c with last_position := c.position -
          ((c.last_position - c.position).scale
            (1 / Real.sqrt (c.last_position - c.position).sqr_len)).scale c.speed_limit } := by
  have hz : (c.last_position - c.position).sqr_len ≠ 0 := by
    intro h0
    rw [h0] at h
    nlinarith [mul_self_nonneg c.speed_limit]
  unfold clampSpeed
  rw [if_pos h, Vec3.normalized_of_ne_zero _ hz]

/-- The clamp either leaves the body unchanged or only moves `last_position`. -/
theorem clampSpeed_eq_or (c : RigidBody) :
    c.clampSpeed = c ∨ ∃ w : Vec3, c.clampSpeed = { c with last_position := w } := by
  by_cases h : (c.last_position - c.position).sqr_len > c.speed_limit * c.speed_limit
  · exact Or.inr ⟨_, clampSpeed_of_gt c h⟩
  · exact Or.inl (clampSpeed_of_not_gt c h)

theorem clampSpeed_position (c : RigidBody) : c.clampSpeed.position = c.position := by
  rcases clampSpeed_eq_or c with h | ⟨w, h⟩ <;> rw [h]

theorem clampSpeed_acceleration (c : RigidBody) :
    c.clampSpeed.acceleration = c.acceleration := by
  rcases clampSpeed_eq_or c with h | ⟨w, h⟩ <;> rw [h]

theorem clampSpeed_friction (c : RigidBody) : c.clampSpeed.friction = c.friction := by
  rcases clampSpeed_eq_or c with h | ⟨w, h⟩ <;> rw [h]

theorem clampSpeed_contacts (c : RigidBody) : c.clampSpeed.contacts = c.contacts := by
  rcases clampSpeed_eq_or c with h | ⟨w, h⟩ <;> rw [h]

/-- After the clamp, the implied squared speed never exceeds the squared
speed limit. -/
theorem clampSpeed_speed_bound (c : RigidBody) :
    (c.clampSpeed.last_position - c.clampSpeed.position).sqr_len
      ≤ c.speed_limit * c.speed_limit := by
  by_cases h : (c.last_position - c.position).sqr_len > c.speed_limit * c.speed_limit
  · have hz : (c.last_position - c.position).sqr_len ≠ 0 := by
      intro h0
      rw [h0] at h
      nlinarith [mul_self_nonneg c.speed_limit]
    rw [clampSpeed_of_gt c h]
    dsimp only
    rw [Vec3.sub_sub_self, Vec3.scale_scale, Vec3.scale_sqr_len,
      Vec3.normalized_unit_sqr_len _ hz]
    nlinarith [mul_self_nonneg c.speed_limit]
  · rw [clampSpeed_of_not_gt c h]
    exact le_of_not_lt h

/-- Triangle resolution never changes friction, whatever the narrow phase
reports. -/
theorem solve_triangle_collision_friction {σ : Type}
    (gjk : ConvexShape → Vec3 → ConvexShape → Vec3 → Option σ)
    (epa : σ → ConvexShape → Vec3 → ConvexShape → Vec3 → Option PenetrationInfo)
    (b : RigidBody) (tri : StaticTriangle) (idx : ℕ) :
    (solve_triangle_collision gjk epa b tri idx).friction = b.friction := by
  simp only [solve_triangle_collision]
  cases hg : gjk b.shape b.position (ConvexShape.Triangle tri.points) Vec3.ZERO with
  | none => rfl
  | some s =>
    cases he : epa s b.shape b.position (ConvexShape.Triangle tri.points) Vec3.ZERO with
    | none => simp [he]
    | some info => simp [he]

/-- Body-body resolution never changes friction on either side. -/
theorem solve_rigid_body_collision_friction {σ : Type}
    (gjk : ConvexShape → Vec3 → ConvexShape → Vec3 → Option σ)
    (epa : σ → ConvexShape → Vec3 → ConvexShape → Vec3 → Option PenetrationInfo)
    (a b : RigidBody) :
    (solve_rigid_body_collision gjk epa a b).1.friction = a.friction ∧
    (solve_rigid_body_collision gjk epa a b).2.friction = b.friction := by
  simp only [solve_rigid_body_collision]
  cases hg : gjk a.shape a.position b.shape b.position with
  | none => exact ⟨rfl, rfl⟩
  | some s =>
    cases he : epa s a.shape a.position b.shape b.position with
    | none => simp [he]
    | some info => simp [he]

end RigidBody

/-- C1: a call to `RigidBody::verlet` selects the damping `f` as the body's
friction when the contact list is non-empty and as `air_friction` otherwise,
sets every axis of position to
`(2 - f) * position - (1 - f) * last_position + acceleration * sqr_delta_time`,
and sets `last_position` to the pre-update value of `position`; this updated
state is then handed to the separately specified speed clamp
(src/rigid_body.rs lines 201-221). -/
theorem spec_c1 (b : RigidBody) (sqr_delta_time air_friction : ℝ) :
    (b.contacts = [] →
      RigidBody.verlet b sqr_delta_time air_friction =
        RigidBody.clampSpeed
          { b with
            position := Vec3.mk ((2 - air_friction) * b.position.x - (1 - air_friction) * b.last_position.x + b.acceleration.x * sqr_delta_time) ((2 - air_friction) * b.position.y - (1 - air_friction) * b.last_position.y + b.acceleration.y * sqr_delta_time) ((2 - air_friction) * b.position.z - (1 - air_friction) * b.last_position.z + b.acceleration.z * sqr_delta_time)
            last_position := b.position
            acceleration := Vec3.ZERO })
    ∧ (b.contacts ≠ [] →
      RigidBody.verlet b sqr_delta_time air_friction =
        RigidBody.clampSpeed
          { b with
            position := Vec3.mk ((2 - b.friction) * b.position.x - (1 - b.friction) * b.last_position.x + b.acceleration.x * sqr_delta_time) ((2 - b.friction) * b.position.y - (1 - b.friction) * b.last_position.y + b.acceleration.y * sqr_delta_time) ((2 - b.friction) * b.position.z - (1 - b.friction) * b.last_position.z + b.acceleration.z * sqr_delta_time)
            last_position := b.position
            acceleration := Vec3.ZERO }) := by
  constructor
  · intro h
    have hE : b.contacts.isEmpty = true := by rw [h]; rfl
    unfold RigidBody.verlet RigidBody.verletIntegrate
    rw [hE]
    rfl
  · intro h
    have hE : b.contacts.isEmpty = false := by
      cases hc : b.contacts with
      | nil => exact absurd hc h
      | cons x l => rfl
    unfold RigidBody.verlet RigidBody.verletIntegrate
    rw [hE]
    rfl

/-- C1 witness: the contact-free case of `spec_c1` evaluated on a freshly
constructed body with `sqr_delta_time = 1` and `air_friction = 0`. -/
theorem spec_c1_witness :
    bodyW.contacts = [] ∧
    RigidBody.verlet bodyW 1 0 =
      RigidBody.clampSpeed
        { bodyW with
          position := Vec3.mk ((2 - 0) * bodyW.position.x - (1 - 0) * bodyW.last_position.x + bodyW.acceleration.x * 1) ((2 - 0) * bodyW.position.y - (1 - 0) * bodyW.last_position.y + bodyW.acceleration.y * 1) ((2 - 0) * bodyW.position.z - (1 - 0) * bodyW.last_position.z + bodyW.acceleration.z * 1)
          last_position := bodyW.position
          acceleration := Vec3.ZERO } :=
  ⟨rfl, (spec_c1 bodyW 1 0).1 rfl⟩

/-- C2: when the narrow phase reports an intersection and penetration
recovery returns data, `RigidBody::solve_triangle_collision` subtracts the
full penetration vector from position and appends exactly one contact with a
null body reference, the returned contact point, the input triangle index,
and the normalization of the negated penetration vector (zero-vector
fallback). -/
theorem spec_c2 {σ : Type}
    (gjk : ConvexShape → Vec3 → ConvexShape → Vec3 → Option σ)
    (epa : σ → ConvexShape → Vec3 → ConvexShape → Vec3 → Option PenetrationInfo)
    (b : RigidBody) (tri : StaticTriangle) (idx : ℕ) (s : σ)
    (info : PenetrationInfo)
    (hgjk : gjk b.shape b.position (ConvexShape.Triangle tri.points) Vec3.ZERO = some s)
    (hepa : epa s b.shape b.position (ConvexShape.Triangle tri.points) Vec3.ZERO = some info)
    (hidx : idx < 2 ^ 32) :
    RigidBody.solve_triangle_collision gjk epa b tri idx =
      { b with
        position := b.position - info.penetration_vector
        contacts := b.contacts ++
          [{ body := Handle.NONE
             position := info.contact_point
             normal := (-info.penetration_vector).normalized.getD Vec3.ZERO
             triangle_index := idx }] } := by
  simp only [RigidBody.solve_triangle_collision, hgjk, hepa]
  rw [Nat.mod_eq_of_lt hidx]

/-- C2 witness: `spec_c2` evaluated with an oracle narrow phase forcing an
intersection with penetration vector (1,0,0) on a fresh body and index 0. -/
theorem spec_c2_witness :
    gjkW bodyW.shape bodyW.position (ConvexShape.Triangle triW.points) Vec3.ZERO = some () ∧
    epaW () bodyW.shape bodyW.position (ConvexShape.Triangle triW.points) Vec3.ZERO = some pinfoW ∧
    (0 : ℕ) < 2 ^ 32 ∧
    RigidBody.solve_triangle_collision gjkW epaW bodyW triW 0 =
      { bodyW with
        position := bodyW.position - pinfoW.penetration_vector
        contacts := bodyW.contacts ++
          [{ body := Handle.NONE
             position := pinfoW.contact_point
             normal := (-pinfoW.penetration_vector).normalized.getD Vec3.ZERO
             triangle_index := 0 }] } :=
  ⟨rfl, rfl, by norm_num, spec_c2 gjkW epaW bodyW triW 0 () pinfoW rfl rfl (by norm_num)⟩

/-- C3: when the narrow phase reports an intersection with penetration
vector `d`, `RigidBody::solve_rigid_body_collision` appends exactly one
contact record to each body unconditionally (null body reference, shared
contact point, triangle index 0, normal `-d` normalized with the fixed up
fallback), while the half-push positional correction is applied to a body
exactly when its flags do not contain the response-disabled flag: body A
moves opposite `d`, body B moves along `d`. -/
theorem spec_c3 {σ : Type}
    (gjk : ConvexShape → Vec3 → ConvexShape → Vec3 → Option σ)
    (epa : σ → ConvexShape → Vec3 → ConvexShape → Vec3 → Option PenetrationInfo)
    (a b : RigidBody) (s : σ) (info : PenetrationInfo)
    (hgjk : gjk a.shape a.position b.shape b.position = some s)
    (hepa : epa s a.shape a.position b.shape b.position = some info) :
    RigidBody.solve_rigid_body_collision gjk epa a b =
      ({ a with
          position :=
            if a.collision_flags.contains CollisionFlags.DISABLE_COLLISION_RESPONSE
            then a.position else a.position - info.penetration_vector.scale 0.5
          contacts := a.contacts ++
            [{ body := Handle.NONE
               position := info.contact_point
               normal := (-info.penetration_vector).normalized.getD Vec3.UP
               triangle_index := 0 }] },
       { b with
          position :=
            if b.collision_flags.contains CollisionFlags.DISABLE_COLLISION_RESPONSE
            then b.position else b.position + info.penetration_vector.scale 0.5
          contacts := b.contacts ++
            [{ body := Handle.NONE
               position := info.contact_point
               normal := (-info.penetration_vector).normalized.getD Vec3.UP
               triangle_index := 0 }] }) := by
  simp only [RigidBody.solve_rigid_body_collision, hgjk, hepa]

/-- C3 witness: `spec_c3` evaluated on a response-enabled body A and a
response-disabled body B with a forced penetration vector (1,0,0); the
record equality shows both bodies gain the contact while the position
updates are guarded by each body's own flag. -/
theorem spec_c3_witness :
    gjkW bodyW.shape bodyW.position bodyF.shape bodyF.position = some () ∧
    epaW () bodyW.shape bodyW.position bodyF.shape bodyF.position = some pinfoW ∧
    RigidBody.solve_rigid_body_collision gjkW epaW bodyW bodyF =
      ({ bodyW with
          position :=
            if bodyW.collision_flags.contains CollisionFlags.DISABLE_COLLISION_RESPONSE
            then bodyW.position else bodyW.position - pinfoW.penetration_vector.scale 0.5
          contacts := bodyW.contacts ++
            [{ body := Handle.NONE
               position := pinfoW.contact_point
               normal := (-pinfoW.penetration_vector).normalized.getD Vec3.UP
               triangle_index := 0 }] },
       { bodyF with
          position :=
            if bodyF.collision_flags.contains CollisionFlags.DISABLE_COLLISION_RESPONSE
            then bodyF.position else bodyF.position + pinfoW.penetration_vector.scale 0.5
          contacts := bodyF.contacts ++
            [{ body := Handle.NONE
               position := pinfoW.contact_point
               normal := (-pinfoW.penetration_vector).normalized.getD Vec3.UP
               triangle_index := 0 }] }) :=
  ⟨rfl, rfl, spec_c3 gjkW epaW bodyW bodyF () pinfoW rfl rfl⟩

/-- C5: when the narrow phase reports no intersection, or penetration
recovery reports no penetration data, both resolution operations leave the
involved bodies completely unchanged (and, being total functions, return
without signaling an error). -/
theorem spec_c5 {σ : Type}
    (gjk : ConvexShape → Vec3 → ConvexShape → Vec3 → Option σ)
    (epa : σ → ConvexShape → Vec3 → ConvexShape → Vec3 → Option PenetrationInfo)
    (b : RigidBody) (tri : StaticTriangle) (idx : ℕ) (a c : RigidBody) :
    ((gjk b.shape b.position (ConvexShape.Triangle tri.points) Vec3.ZERO = none ∨
      ∃ s, gjk b.shape b.position (ConvexShape.Triangle tri.points) Vec3.ZERO = some s ∧
        epa s b.shape b.position (ConvexShape.Triangle tri.points) Vec3.ZERO = none) →
      RigidBody.solve_triangle_collision gjk epa b tri idx = b)
    ∧ ((gjk a.shape a.position c.shape c.position = none ∨
      ∃ s, gjk a.shape a.position c.shape c.position = some s ∧
        epa s a.shape a.position c.shape c.position = none) →
      RigidBody.solve_rigid_body_collision gjk epa a c = (a, c)) := by
  constructor
  · rintro (h | ⟨s, h1, h2⟩)
    · simp only [RigidBody.solve_triangle_collision, h]
    · simp only [RigidBody.solve_triangle_collision, h1, h2]
  · rintro (h | ⟨s, h1, h2⟩)
    · simp only [RigidBody.solve_rigid_body_collision, h]
    · simp only [RigidBody.solve_rigid_body_collision, h1, h2]

/-- C5 witness: `spec_c5` evaluated with a narrow phase that reports no
intersection: both operations return their inputs bit for bit. -/
theorem spec_c5_witness :
    RigidBody.solve_triangle_collision gjkNoneW epaW bodyW triW 0 = bodyW ∧
    RigidBody.solve_rigid_body_collision gjkNoneW epaW bodyW bodyF = (bodyW, bodyF) :=
  ⟨(spec_c5 gjkNoneW epaW bodyW triW 0 bodyW bodyF).1 (Or.inl rfl),
   (spec_c5 gjkNoneW epaW bodyW triW 0 bodyW bodyF).2 (Or.inl rfl)⟩

/-- C6: after one call to `RigidBody::verlet` the acceleration accumulator
is exactly the zero vector, whatever its input value and the body state. -/
theorem spec_c6 (b : RigidBody) (sqr_delta_time air_friction : ℝ) :
    (RigidBody.verlet b sqr_delta_time air_friction).acceleration = Vec3.ZERO := by
  unfold RigidBody.verlet
  rw [RigidBody.clampSpeed_acceleration]
  rfl

/-- C7: `RigidBody::set_friction` stores `clamp(f, 0, 1)` — in particular a
negative input stores 0 and an input above 1 stores 1 — and the resulting
friction lies in [0, 1]; every other public operation leaves friction
unchanged (and a fresh body starts at 0.2 ∈ [0, 1]), so the invariant
friction ∈ [0, 1] is preserved by every public operation. -/
theorem spec_c7 (b : RigidBody) (f : ℝ) :
    ((RigidBody.set_friction b f).friction = max 0 (min 1 f)) ∧
    (f < 0 → (RigidBody.set_friction b f).friction = 0) ∧
    (1 < f → (RigidBody.set_friction b f).friction = 1) ∧
    (0 ≤ (RigidBody.set_friction b f).friction) ∧
    ((RigidBody.set_friction b f).friction ≤ 1) ∧
    (∀ p : Vec3, (RigidBody.set_position b p).friction = b.friction) ∧
    (∀ v : Vec3, (RigidBody.move_by b v).friction = b.friction) ∧
    (∀ s : ConvexShape, (RigidBody.set_shape b s).friction = b.friction) ∧
    (∀ x : ℝ, (RigidBody.set_x_velocity b x).friction = b.friction) ∧
    (∀ y : ℝ, (RigidBody.set_y_velocity b y).friction = b.friction) ∧
    (∀ z : ℝ, (RigidBody.set_z_velocity b z).friction = b.friction) ∧
    (∀ g : Vec3, (RigidBody.set_gravity b g).friction = b.friction) ∧
    (∀ t : ℝ, (RigidBody.set_lifetime b t).friction = b.friction) ∧
    (∀ sqr_delta_time air_friction : ℝ,
      (RigidBody.verlet b sqr_delta_time air_friction).friction = b.friction) ∧
    (∀ (σ : Type) (gjk : ConvexShape → Vec3 → ConvexShape → Vec3 → Option σ)
      (epa : σ → ConvexShape → Vec3 → ConvexShape → Vec3 → Option PenetrationInfo)
      (tri : StaticTriangle) (idx : ℕ),
      (RigidBody.solve_triangle_collision gjk epa b tri idx).friction = b.friction) ∧
    (∀ (σ : Type) (gjk : ConvexShape → Vec3 → ConvexShape → Vec3 → Option σ)
      (epa : σ → ConvexShape → Vec3 → ConvexShape → Vec3 → Option PenetrationInfo)
      (other : RigidBody),
      (RigidBody.solve_rigid_body_collision gjk epa b other).1.friction = b.friction ∧
      (RigidBody.solve_rigid_body_collision gjk epa b other).2.friction = other.friction) ∧
    ((RigidBody.clone b).friction = b.friction) ∧
    (∀ s : ConvexShape, (RigidBody.new s).friction = 0.2 ∧
      0 ≤ (RigidBody.new s).friction ∧ (RigidBody.new s).friction ≤ 1) := by
  have hclamp : (RigidBody.set_friction b f).friction = max 0 (min 1 f) := by
    simp only [RigidBody.set_friction]
    split_ifs with h0 h1
    · rw [min_eq_right (by linarith : f ≤ 1), max_eq_left (by linarith : f ≤ 0)]
    · rw [min_eq_left (by linarith : (1 : ℝ) ≤ f), max_eq_right (by norm_num : (0 : ℝ) ≤ 1)]
    · rw [min_eq_right (by linarith : f ≤ 1), max_eq_right (by linarith : (0 : ℝ) ≤ f)]
  refine ⟨hclamp, ?_, ?_, ?_, ?_, fun p => rfl, fun v => rfl, fun s => rfl,
    fun x => rfl, fun y => rfl, fun z => rfl, fun g => rfl, fun t => rfl,
    ?_, ?_, ?_, rfl, ?_⟩
  · intro h0
    simp only [RigidBody.set_friction]
    rw [if_pos h0]
  · intro h1
    simp only [RigidBody.set_friction]
    rw [if_neg (by linarith : ¬ f < 0), if_pos h1]
  · rw [hclamp]
    exact le_max_left 0 _
  · rw [hclamp]
    exact max_le (by norm_num) (min_le_left 1 f)
  · intro dt af
    unfold RigidBody.verlet
    rw [RigidBody.clampSpeed_friction]
    rfl
  · intro σ gjk epa tri idx
    exact RigidBody.solve_triangle_collision_friction gjk epa b tri idx
  · intro σ gjk epa other
    exact RigidBody.solve_rigid_body_collision_friction gjk epa b other
  · intro s
    exact ⟨rfl, by norm_num [RigidBody.new], by norm_num [RigidBody.new]⟩

/-- C7 witness: `spec_c7` evaluated at the out-of-range inputs -1 and 2 on a
fresh body: the stored friction is 0 and 1 respectively. -/
theorem spec_c7_witness :
    ((-1 : ℝ) < 0 ∧ (RigidBody.set_friction bodyW (-1)).friction = 0) ∧
    ((1 : ℝ) < 2 ∧ (RigidBody.set_friction bodyW 2).friction = 1) :=
  ⟨⟨by norm_num, (spec_c7 bodyW (-1)).2.1 (by norm_num)⟩,
   ⟨by norm_num, (spec_c7 bodyW 2).2.2.1 (by norm_num)⟩⟩

/-- C8: cloning copies position, previous position, acceleration, friction,
gravity, shape, speed limit, lifetime, user flags, collision group and
collision mask, but resets the contact list to empty and the collision
flags to none. -/
theorem spec_c8 (b : RigidBody) :
    (RigidBody.clone b).position = b.position ∧
    (RigidBody.clone b).last_position = b.last_position ∧
    (RigidBody.clone b).acceleration = b.acceleration ∧
    (RigidBody.clone b).friction = b.friction ∧
    (RigidBody.clone b).gravity = b.gravity ∧
    (RigidBody.clone b).shape = b.shape ∧
    (RigidBody.clone b).speed_limit = b.speed_limit ∧
    (RigidBody.clone b).lifetime = b.lifetime ∧
    (RigidBody.clone b).user_flags = b.user_flags ∧
    (RigidBody.clone b).collision_group = b.collision_group ∧
    (RigidBody.clone b).collision_mask = b.collision_mask ∧
    (RigidBody.clone b).contacts = [] ∧
    (RigidBody.clone b).collision_flags = CollisionFlags.NONE :=
  ⟨rfl, rfl, rfl, rfl, rfl, rfl, rfl, rfl, rfl, rfl, rfl, rfl, rfl⟩

/-- C9: when reading persisted state, the collision-flags field is rebuilt
from its raw u8 bit pattern by the validating conversion `from_bits`: a
pattern with only recognized bits is stored exactly (no masking), while a
pattern containing unrecognized bits yields no value, which the loader
turns into a fatal error (the unwrap panic) instead of coercing it. -/
theorem spec_c9 (raw : ℕ) (_h : raw < 256) :
    (raw &&& (255 ^^^ CollisionFlags.all.bits) = 0 →
      CollisionFlags.from_bits raw = some ⟨raw⟩ ∧
      visitReadCollisionFlags raw = some ⟨raw⟩) ∧
    (raw &&& (255 ^^^ CollisionFlags.all.bits) ≠ 0 →
      CollisionFlags.from_bits raw = none ∧
      visitReadCollisionFlags raw = none) := by
  constructor
  · intro h2
    have h3 : CollisionFlags.from_bits raw = some ⟨raw⟩ := by
      unfold CollisionFlags.from_bits
      rw [if_pos h2]
    exact ⟨h3, h3⟩
  · intro h2
    have h3 : CollisionFlags.from_bits raw = none := by
      unfold CollisionFlags.from_bits
      rw [if_neg h2]
    exact ⟨h3, h3⟩

/-- C9 witness: `spec_c9` evaluated at the malformed pattern 2 (an
unrecognized bit): the conversion rejects it. -/
theorem spec_c9_witness :
    (2 : ℕ) < 256 ∧ (2 : ℕ) &&& (255 ^^^ CollisionFlags.all.bits) ≠ 0 ∧
    CollisionFlags.from_bits 2 = none ∧ visitReadCollisionFlags 2 = none :=
  ⟨by norm_num, by decide,
   ((spec_c9 2 (by norm_num)).2 (by decide)).1,
   ((spec_c9 2 (by norm_num)).2 (by decide)).2⟩

/-- C10: a freshly constructed body (with any shape; the default
constructor uses the dummy shape) starts with position equal to
last_position (zero implied velocity), an empty contact list, zero
acceleration, friction 0.2 ∈ [0, 1], gravity (0, -9.81, 0), speed limit
0.75, no lifetime, collision group 1, collision mask all-ones and cleared
collision flags. -/
theorem spec_c10 (shape : ConvexShape) :
    (RigidBody.new shape).position = (RigidBody.new shape).last_position ∧
    (RigidBody.new shape).position - (RigidBody.new shape).last_position = Vec3.ZERO ∧
    (RigidBody.new shape).contacts = [] ∧
    (RigidBody.new shape).acceleration = Vec3.ZERO ∧
    (RigidBody.new shape).friction = 0.2 ∧
    (0 ≤ (RigidBody.new shape).friction ∧ (RigidBody.new shape).friction ≤ 1) ∧
    (RigidBody.new shape).gravity = Vec3.mk 0 (-9.81) 0 ∧
    (RigidBody.new shape).speed_limit = 0.75 ∧
    (RigidBody.new shape).lifetime = none ∧
    (RigidBody.new shape).collision_group = 1 ∧
    (RigidBody.new shape).collision_mask = 2 ^ 64 - 1 ∧
    (RigidBody.new shape).collision_flags = CollisionFlags.NONE ∧
    (RigidBody.new shape).shape = shape ∧
    RigidBody.default = RigidBody.new ConvexShape.Dummy :=
  ⟨rfl, by ext <;> norm_num [RigidBody.new, Vec3.ZERO], rfl, rfl, rfl,
   ⟨by norm_num [RigidBody.new], by norm_num [RigidBody.new]⟩,
   rfl, rfl, rfl, rfl, rfl, rfl, rfl, rfl⟩

/-- C4 (amended): with a positive speed limit, after one `RigidBody::verlet`
call the implied squared speed (of `last_position - position`) never exceeds
`speed_limit²` and position is left as the integration computed it; when the
post-integration squared speed exceeds `speed_limit²`, `last_position` is
rescaled so the implied speed equals exactly `speed_limit` but with the
direction REVERSED (the final implied velocity is `-speed_limit` times the
unit of the pre-clamp implied velocity, not `+speed_limit` times it); when
it does not exceed the limit (in particular for a degenerate zero-length
velocity), position and last_position are left exactly as computed. -/
theorem spec_c4_amended (b : RigidBody) (sqr_delta_time air_friction : ℝ)
    (_hL : 0 < b.speed_limit) :
    ((RigidBody.verlet b sqr_delta_time air_friction).last_position -
      (RigidBody.verlet b sqr_delta_time air_friction).position).sqr_len
        ≤ b.speed_limit * b.speed_limit ∧
    (RigidBody.verlet b sqr_delta_time air_friction).position =
      (RigidBody.verletIntegrate b sqr_delta_time air_friction).position ∧
    (((RigidBody.verletIntegrate b sqr_delta_time air_friction).last_position -
        (RigidBody.verletIntegrate b sqr_delta_time air_friction).position).sqr_len
          > b.speed_limit * b.speed_limit →
      (RigidBody.verlet b sqr_delta_time air_friction).last_position -
          (RigidBody.verlet b sqr_delta_time air_friction).position =
        (((RigidBody.verletIntegrate b sqr_delta_time air_friction).last_position -
            (RigidBody.verletIntegrate b sqr_delta_time air_friction).position).scale
          (1 / Real.sqrt ((RigidBody.verletIntegrate b sqr_delta_time air_friction).last_position -
            (RigidBody.verletIntegrate b sqr_delta_time air_friction).position).sqr_len)).scale
          (-b.speed_limit) ∧
      ((RigidBody.verlet b sqr_delta_time air_friction).last_position -
          (RigidBody.verlet b sqr_delta_time air_friction).position).sqr_len
        = b.speed_limit * b.speed_limit) ∧
    (¬ (((RigidBody.verletIntegrate b sqr_delta_time air_friction).last_position -
        (RigidBody.verletIntegrate b sqr_delta_time air_friction).position).sqr_len
          > b.speed_limit * b.speed_limit) →
      RigidBody.verlet b sqr_delta_time air_friction =
        RigidBody.verletIntegrate b sqr_delta_time air_friction) := by
  refine ⟨?_, ?_, ?_, ?_⟩
  · exact RigidBody.clampSpeed_speed_bound
      (RigidBody.verletIntegrate b sqr_delta_time air_friction)
  · exact RigidBody.clampSpeed_position
      (RigidBody.verletIntegrate b sqr_delta_time air_friction)
  · intro hgt
    have hz : ((RigidBody.verletIntegrate b sqr_delta_time air_friction).last_position -
        (RigidBody.verletIntegrate b sqr_delta_time air_friction).position).sqr_len ≠ 0 := by
      intro h0
      rw [h0] at hgt
      nlinarith [mul_self_nonneg b.speed_limit]
    have hres := RigidBody.clampSpeed_of_gt
      (RigidBody.verletIntegrate b sqr_delta_time air_friction) hgt
    constructor
    · rw [show RigidBody.verlet b sqr_delta_time air_friction =
          (RigidBody.verletIntegrate b sqr_delta_time air_friction).clampSpeed from rfl, hres]
      dsimp only
      rw [Vec3.sub_sub_self, Vec3.scale_scale,
        show (RigidBody.verletIntegrate b sqr_delta_time air_friction).speed_limit =
          b.speed_limit from rfl]
      congr 1
      ring
    · rw [show RigidBody.verlet b sqr_delta_time air_friction =
          (RigidBody.verletIntegrate b sqr_delta_time air_friction).clampSpeed from rfl, hres]
      dsimp only
      rw [Vec3.sub_sub_self, Vec3.scale_scale, Vec3.scale_sqr_len,
        Vec3.normalized_unit_sqr_len _ hz,
        show (RigidBody.verletIntegrate b sqr_delta_time air_friction).speed_limit =
          b.speed_limit from rfl]
      ring
  · intro hle
    exact RigidBody.clampSpeed_of_not_gt
      (RigidBody.verletIntegrate b sqr_delta_time air_friction) hle

/-- C4 witness: the speed bound of `spec_c4_amended` evaluated on a body
with speed limit 1 whose integration step produces implied speed 2. -/
theorem spec_c4_witness :
    0 < cbC4.speed_limit ∧
    ((RigidBody.verlet cbC4 0 0).last_position -
      (RigidBody.verlet cbC4 0 0).position).sqr_len
        ≤ cbC4.speed_limit * cbC4.speed_limit :=
  ⟨by norm_num [cbC4, RigidBody.new],
   (spec_c4_amended cbC4 0 0 (by norm_num [cbC4, RigidBody.new])).1⟩

/-- C4 counterexample: on the concrete body `cbC4` (position 0, previous
position (2,0,0), speed limit 1, no contacts, zero acceleration) one verlet
call produces the pre-clamp implied velocity (2,0,0), which exceeds the
limit, and the clamp rescales the implied velocity to (-1,0,0): the speed is
exactly the limit but the direction is reversed — (-1,0,0) is not a
nonnegative multiple of (2,0,0) — refuting the claim that the rescale
preserves direction. -/
theorem spec_c4_cex :
    (RigidBody.verletIntegrate cbC4 0 0).last_position -
      (RigidBody.verletIntegrate cbC4 0 0).position = Vec3.mk 2 0 0 ∧
    ((RigidBody.verletIntegrate cbC4 0 0).last_position -
      (RigidBody.verletIntegrate cbC4 0 0).position).sqr_len
        > cbC4.speed_limit * cbC4.speed_limit ∧
    (RigidBody.verlet cbC4 0 0).last_position -
      (RigidBody.verlet cbC4 0 0).position = Vec3.mk (-1) 0 0 ∧
    ¬ ∃ t : ℝ, 0 ≤ t ∧ Vec3.mk (-1) 0 0 = (Vec3.mk 2 0 0).scale t := by
  have hv : (RigidBody.verletIntegrate cbC4 0 0).last_position -
      (RigidBody.verletIntegrate cbC4 0 0).position = Vec3.mk 2 0 0 := by
    ext <;> norm_num [RigidBody.verletIntegrate, cbC4, RigidBody.new, Vec3.ZERO]
  have hgt : ((RigidBody.verletIntegrate cbC4 0 0).last_position -
      (RigidBody.verletIntegrate cbC4 0 0).position).sqr_len
        > cbC4.speed_limit * cbC4.speed_limit := by
    rw [hv]
    norm_num [Vec3.sqr_len, cbC4, RigidBody.new]
  have hres := RigidBody.clampSpeed_of_gt (RigidBody.verletIntegrate cbC4 0 0) hgt
  have hsqrt2 : Real.sqrt (Vec3.mk 2 0 0).sqr_len = 2 := by
    rw [show (Vec3.mk 2 0 0).sqr_len = (2 : ℝ) ^ 2 by norm_num [Vec3.sqr_len]]
    exact Real.sqrt_sq (by norm_num)
  have hfinal : (RigidBody.verlet cbC4 0 0).last_position -
      (RigidBody.verlet cbC4 0 0).position = Vec3.mk (-1) 0 0 := by
    rw [show RigidBody.verlet cbC4 0 0 =
        (RigidBody.verletIntegrate cbC4 0 0).clampSpeed from rfl, hres]
    dsimp only
    rw [Vec3.sub_sub_self, hv, hsqrt2,
      show (RigidBody.verletIntegrate cbC4 0 0).speed_limit = (1 : ℝ) from rfl]
    ext <;> norm_num [Vec3.scale]
  refine ⟨hv, hgt, hfinal, ?_⟩
  rintro ⟨t, ht, heq⟩
  have hx := congrArg Vec3.x heq
  simp [Vec3.scale] at hx
  linarith

end
